import Mathlib

/-!
Verification development for the ProYouTubeDownloader repository.

Shallow embedding of the stream-selection and download-orchestration pipeline:
`src/utils/helpers.py` (filename sanitizer), `src/utils/youtube_handler.py`
(metadata fetch, quality enumeration, audio/video download with merge and
cleanup) and `src/gui/app.py` (the batch driver `download_logic`).

External effects (network transfers, the ffmpeg subprocess, `os.remove`) are
modelled by an oracle that fixes the outcome of each call; the embedding
threads an explicit state recording the events performed and the files that
exist, so that theorems can count transfers and muxer invocations and inspect
the surviving files.
-/

namespace ProYTD

deriving instance DecidableEq for Except

/-! ### Filename sanitizer (src/utils/helpers.py) -/

/-- The characters of the regex character class in
`re.sub(r'[<>:"/\\|?*]', "-", name)` at src/utils/helpers.py line 20. -/
def illegalChars : List Char := ['<', '>', ':', '"', '/', '\\', '|', '?', '*']

/-- Shallow embedding of `sanitize_filename` (src/utils/helpers.py lines 10-20):
each occurrence of a character of `illegalChars` is replaced by a hyphen. -/
def sanitize_filename (name : String) : String :=
  ⟨name.data.map (fun c => if c ∈ illegalChars then '-' else c)⟩

/-! ### Stream descriptors (the attributes the code filters on) -/

/-- A pytubefix stream as seen by this code base: the boolean filter flags
`progressive`, `only_video`, `only_audio` and the string attributes
`resolution` and `abr` (either may be unset, i.e. `None`). -/
structure StreamD where
  progressive : Bool
  only_video : Bool
  only_audio : Bool
  resolution : Option String
  abr : Option String
deriving DecidableEq

/-- The digit characters of a string, in order: models both
`re.sub(r"\D", "", x)` and `"".join(filter(str.isdigit, x))`. -/
def digitsOf (s : String) : String := ⟨s.data.filter Char.isDigit⟩

/-- Python `int(s)` for the strings this code ever converts: the value of a
non-empty all-digit string, `none` modelling the `ValueError` otherwise. -/
def decVal? (s : String) : Option Nat :=
  if s.data.isEmpty then none
  else if s.data.all Char.isDigit then
    some (s.data.foldl (fun n c => n * 10 + (c.toNat - '0'.toNat)) 0)
  else none

/-- `int` of the digit characters of `s`; `none` models the `ValueError`
raised by `int("")` when `s` has no digit. -/
def numKey? (s : String) : Option Nat := decVal? (digitsOf s)

/-- Total version of `numKey?`, for use once parseability is known. -/
def numKey (s : String) : Nat := (numKey? s).getD 0

/-- `int(x[:-1])` as used on resolution labels such as `"1080p"` at
src/utils/youtube_handler.py line 100; `none` models the `ValueError` raised
when the remaining text is not a plain decimal numeral. -/
def resKey? (x : String) : Option Nat := decVal? (x.dropRight 1)

/-- Total version of `resKey?`. -/
def resKey (x : String) : Nat := (resKey? x).getD 0

/-- Shallow embedding of pytubefix `StreamQuery.order_by(attr).desc()`:
keep the streams whose attribute is set; when every kept value contains a
digit, sort ascending (stably) by the integer formed from its digit
characters, otherwise sort by the raw string; `.desc()` reverses the result. -/
def order_by_desc (attr : StreamD → Option String) (l : List StreamD) : List StreamD :=
  if (l.filter (fun s => (attr s).isSome)).all
      (fun s => (numKey? ((attr s).getD "")).isSome) then
    ((l.filter (fun s => (attr s).isSome)).insertionSort
      (fun a b => numKey ((attr a).getD "") ≤ numKey ((attr b).getD ""))).reverse
  else
    ((l.filter (fun s => (attr s).isSome)).insertionSort
      (fun a b => ¬ ((attr b).getD "" < (attr a).getD ""))).reverse

/-! ### Stream selections of the download paths -/

/-- Line 175: `yt.streams.filter(progressive=True, res=quality).first()`. -/
def progressive_selection (streams : List StreamD) (quality : String) : Option StreamD :=
  (streams.filter (fun s => s.progressive && s.resolution == some quality)).head?

/-- Lines 183-185:
`yt.streams.filter(only_video=True, res=quality).order_by("resolution").desc().first()`. -/
def video_stream_selection (streams : List StreamD) (quality : String) : Option StreamD :=
  (order_by_desc (fun s => s.resolution)
    (streams.filter (fun s => s.only_video && s.resolution == some quality))).head?

/-- Lines 186 and 151:
`yt.streams.filter(only_audio=True).order_by("abr").desc().first()`. -/
def best_audio_selection (streams : List StreamD) : Option StreamD :=
  (order_by_desc (fun s => s.abr) (streams.filter (fun s => s.only_audio))).head?

/-- Line 149: `yt.streams.filter(only_audio=True, abr=quality).first()`. -/
def exact_audio_selection (streams : List StreamD) (quality : String) : Option StreamD :=
  (streams.filter (fun s => s.only_audio && s.abr == some quality)).head?

/-! ### Quality enumerator (src/utils/youtube_handler.py lines 72-106) -/

/-- Lines 93-97: the distinct truthy resolution labels of the progressive
streams followed by the video-only streams (`set(...)` determinized as
`dedup`; Python's truthiness test excludes both `None` and `""`). -/
def resolutionLabels (streams : List StreamD) : List String :=
  let prog := streams.filter (fun s => s.progressive)
  let adap := streams.filter (fun s => s.only_video)
  (((prog ++ adap).filterMap (fun s => s.resolution)).filter (fun r => r != "")).dedup

/-- Lines 86-88: the distinct truthy `abr` labels of the audio-only streams,
drawn from the `order_by("abr").desc()` query. -/
def abrLabels (streams : List StreamD) : List String :=
  (((order_by_desc (fun s => s.abr) (streams.filter (fun s => s.only_audio))).filterMap
      (fun s => s.abr)).filter (fun r => r != "")).dedup

/-- Shallow embedding of `get_quality_options` (lines 72-106).  The sort key
raising `ValueError` on an unparseable label makes the whole `try` body fail,
leaving `qualities = []`; an empty final list is replaced by the sentinel
`["Not Available"]`. -/
def get_quality_options (streams : List StreamD) (mode : String) : List String :=
  let qualities :=
    if mode == "Audio" then
      let labels := abrLabels streams
      if labels.all (fun x => (numKey? x).isSome) then
        labels.insertionSort (fun a b => numKey b ≤ numKey a)
      else []
    else
      let labels := resolutionLabels streams
      if labels.all (fun x => (resKey? x).isSome) then
        labels.insertionSort (fun a b => resKey b ≤ resKey a)
      else []
  if qualities.isEmpty then ["Not Available"] else qualities

/-! ### Effect model: Python exceptions, events, state, outcome oracle -/

/-- The Python exception values the embedded code can raise or observe. -/
inductive PyErr where
  | fileNotFound
  | calledProcess (msg : String)
  | osError (msg : String)
  | exception (msg : String)
  | attributeError (msg : String)
  | valueError (msg : String)
  | transfer (msg : String)
deriving DecidableEq

/-- `str(e)` for the modelled exceptions. -/
def PyErr.str : PyErr → String
  | .fileNotFound => "FileNotFoundError"
  | .calledProcess m => m
  | .osError m => m
  | .exception m => m
  | .attributeError m => m
  | .valueError m => m
  | .transfer m => m

/-- The observable external actions the code performs: a progressive-stream
transfer, a video-only transfer, an audio-only transfer, a `subprocess.run` of
the muxer with its argument list, a successful `os.remove`, a removal failure
that was caught and logged, an `os.makedirs`, and one `handler.download`
invocation recording its `save_path` and sanitized filename. -/
inductive Ev where
  | dlProg (file : String)
  | dlVideo (file : String)
  | dlAudio (file : String)
  | mux (args : List String)
  | rm (file : String)
  | rmFailLogged (file : String)
  | mkdir (path : String)
  | item (save_path title : String)
deriving DecidableEq

/-- The threaded state: the events performed so far and the files that
currently exist (only the files this code writes are tracked). -/
structure St where
  events : List Ev
  files : List String
deriving DecidableEq

def St.emit (st : St) (e : Ev) : St := { st with events := st.events ++ [e] }

def St.addFile (st : St) (f : String) : St :=
  { st with files := if f ∈ st.files then st.files else st.files ++ [f] }

def St.rmFile (st : St) (f : String) : St := { st with files := st.files.erase f }

/-- Outcome of a muxer `subprocess.run(..., check=True)` call. -/
inductive MuxRes where
  | ok
  | procErr
  | notFound
deriving DecidableEq

/-- Fixes the outcome of every external call one `_download_video` or
`_download_audio` invocation can make: the progressive transfer, the two
video/audio transfer pairs (the block at lines 196-218 and the duplicated
block at lines 236-245), the two ffmpeg runs, the four `os.remove` calls of
the two cleanup blocks, and the audio-path transfer. -/
structure VOracle where
  progOk : Bool := true
  vOk1 : Bool := true
  aOk1 : Bool := true
  mux1 : MuxRes := .ok
  rmV1 : Bool := true
  rmA1 : Bool := true
  vOk2 : Bool := true
  aOk2 : Bool := true
  mux2 : MuxRes := .ok
  rmV2 : Bool := true
  rmA2 : Bool := true
  audioDlOk : Bool := true
deriving DecidableEq

/-- Model of `os.path.join(dir, name)` for the shapes the code uses. -/
def pjoin (a b : String) : String := a ++ "/" ++ b

/-- A pytubefix `Stream.download` call writing `file`: the transfer attempt is
recorded as event `e`; on success the file exists afterwards, on failure a
transfer-layer error is raised. -/
def pyDownload (file : String) (ok : Bool) (e : Ev) (st : St) :
    Except PyErr Unit × St :=
  let st := st.emit e
  if ok then (.ok (), st.addFile file) else (.error (.transfer "TransferFailed"), st)

/-- The fixed ffmpeg argument list of both merge invocations
(lines 203-218 and 242-245). -/
def ffmpegArgs (video_file audio_file output_file : String) : List String :=
  ["ffmpeg", "-y", "-i", video_file, "-i", audio_file, "-c", "copy", output_file]

/-- `subprocess.run` of the muxer with `check=True`: the invocation is
recorded; success creates the output file; `procErr` raises
`CalledProcessError`, `notFound` raises `FileNotFoundError`. -/
def pyRunMux (args : List String) (out : String) (res : MuxRes) (st : St) :
    Except PyErr Unit × St :=
  let st := st.emit (.mux args)
  match res with
  | .ok => (.ok (), st.addFile out)
  | .procErr => (.error (.calledProcess "CalledProcessError"), st)
  | .notFound => (.error .fileNotFound, st)

/-- One iteration of the guarded cleanup loop (lines 228-234): if the file
exists, try to remove it; an `OSError` is caught and logged. -/
def cleanupTemp1 (f : String) (rmOk : Bool) (st : St) : St :=
  if f ∈ st.files then
    if rmOk then (st.emit (.rm f)).rmFile f
    else st.emit (.rmFailLogged f)
  else st

/-- The first `finally` block (lines 226-234): iterate over
`[video_file, audio_file]` with guarded removal. -/
def cleanup1 (video_file audio_file : String) (o : VOracle) (st : St) : St :=
  cleanupTemp1 audio_file o.rmA1 (cleanupTemp1 video_file o.rmV1 st)

/-- An unguarded `os.remove(f)`: on failure the `OSError` propagates. -/
def pyRemove (f : String) (ok : Bool) (st : St) : Except PyErr Unit × St :=
  if ok then (.ok (), (st.emit (.rm f)).rmFile f)
  else (.error (.osError ("OSError removing " ++ f)), st)

/-- The second `finally` block (lines 248-251): two plain statements, each
`if os.path.exists(f): os.remove(f)`; if the first raises, the second is never
executed and the `OSError` propagates (replacing any exception in flight). -/
def cleanup2 (video_file audio_file : String) (o : VOracle) (st : St) :
    Except PyErr Unit × St :=
  if video_file ∈ st.files then
    match pyRemove video_file o.rmV2 st with
    | (.ok _, st) =>
        if audio_file ∈ st.files then pyRemove audio_file o.rmA2 st else (.ok (), st)
    | (.error e, st) => (.error e, st)
  else
    if audio_file ∈ st.files then pyRemove audio_file o.rmA2 st else (.ok (), st)

/-! ### The download orchestrator (src/utils/youtube_handler.py lines 108-251) -/

/-- Shallow embedding of `YouTubeHandler._download_audio` (lines 136-157). -/
def download_audio (streams : List StreamD) (quality save_path file_title : String)
    (o : VOracle) (st : St) : Except PyErr Unit × St :=
  let stream :=
    match exact_audio_selection streams quality with
    | none => best_audio_selection streams
    | some s => some s
  match stream with
  | none => (.error (.exception "No audio stream found."), st)
  | some _ =>
      let f := pjoin save_path (file_title ++ ".mp3")
      pyDownload f o.audioDlOk (.dlAudio f) st

/-- Shallow embedding of `YouTubeHandler._download_video` (lines 159-251),
including the duplicated download/merge/cleanup block at lines 236-251 that
runs after the first `try`/`finally` block completes without an exception. -/
def download_video (streams : List StreamD) (quality save_path file_title : String)
    (o : VOracle) (st : St) : Except PyErr Unit × St :=
  match progressive_selection streams quality with
  | some _ =>
      let f := pjoin save_path (file_title ++ ".mp4")
      pyDownload f o.progOk (.dlProg f) st
  | none =>
  match video_stream_selection streams quality, best_audio_selection streams with
  | some _, some _ =>
      let video_file := pjoin save_path (file_title ++ "_video.mp4")
      let audio_file := pjoin save_path (file_title ++ "_audio.mp4")
      let output_file := pjoin save_path (file_title ++ ".mp4")
      -- try block, lines 196-218, with except 219-225 and finally 226-234
      match pyDownload video_file o.vOk1 (.dlVideo video_file) st with
      | (.error e, st) => (.error e, cleanup1 video_file audio_file o st)
      | (.ok _, st) =>
      match pyDownload audio_file o.aOk1 (.dlAudio audio_file) st with
      | (.error e, st) => (.error e, cleanup1 video_file audio_file o st)
      | (.ok _, st) =>
      match pyRunMux (ffmpegArgs video_file audio_file output_file) output_file o.mux1 st with
      | (.error .fileNotFound, st) =>
          (.error (.exception ("FFmpeg not found. Please ensure FFmpeg is installed " ++
            "and added to your system PATH. Download from: https://ffmpeg.org/download.html")),
           cleanup1 video_file audio_file o st)
      | (.error (.calledProcess m), st) =>
          (.error (.exception ("FFmpeg merge failed: " ++ m)),
           cleanup1 video_file audio_file o st)
      | (.error e, st) => (.error e, cleanup1 video_file audio_file o st)
      | (.ok _, st) =>
      let st := cleanup1 video_file audio_file o st
      -- duplicated block, lines 236-251: download again, merge again
      match pyDownload video_file o.vOk2 (.dlVideo video_file) st with
      | (.error e, st) => (.error e, st)
      | (.ok _, st) =>
      match pyDownload audio_file o.aOk2 (.dlAudio audio_file) st with
      | (.error e, st) => (.error e, st)
      | (.ok _, st) =>
      match pyRunMux (ffmpegArgs video_file audio_file output_file) output_file o.mux2 st with
      | (.ok _, st) =>
          (match cleanup2 video_file audio_file o st with
           | (.ok _, st) => (.ok (), st)
           | (.error e, st) => (.error e, st))
      | (.error e, st) =>
          let e2 :=
            match e with
            | .fileNotFound =>
                PyErr.exception ("FFmpeg failed to merge files. Ensure FFmpeg is " ++
                  "installed and in your system's PATH.")
            | .calledProcess _ =>
                PyErr.exception ("FFmpeg failed to merge files. Ensure FFmpeg is " ++
                  "installed and in your system's PATH.")
            | x => x
          (match cleanup2 video_file audio_file o st with
           | (.ok _, st) => (.error e2, st)
           | (.error e3, st) => (.error e3, st))
  | _, _ =>
      (.error (.exception ("Could not find separate video/audio streams for " ++
        quality ++ ".")), st)

/-- Shallow embedding of `YouTubeHandler.download` (lines 108-134): sanitize
`prefix + title`, record the invocation, and dispatch on the mode (the
`except`/`raise` at lines 132-134 re-raises unchanged). -/
def handler_download (streams : List StreamD) (quality mode save_path pfx title : String)
    (o : VOracle) (st : St) : Except PyErr Unit × St :=
  let sanitized_title := sanitize_filename (pfx ++ title)
  let st := st.emit (.item save_path sanitized_title)
  if mode == "Audio" then download_audio streams quality save_path sanitized_title o st
  else download_video streams quality save_path sanitized_title o st

/-! ### Metadata fetcher (src/utils/youtube_handler.py lines 24-70) -/

/-- What pytubefix supplies for one resolved video. -/
structure VideoData where
  title : String
  streams : List StreamD
  thumbnail_url : String
deriving DecidableEq

/-- What pytubefix supplies for one resolved playlist. -/
structure PlaylistData where
  title : String
  videos : List VideoData
deriving DecidableEq

/-- Outcome of the external pytubefix boundary for one URL: resolving
`Playlist(url)` (with its `.videos`/`.title` properties) or `YouTube(url)`
either yields data or raises. -/
structure Provider where
  playlistResult : Except PyErr PlaylistData
  videoResult : Except PyErr VideoData

/-- The success dictionary `fetch_details` builds (lines 49-56 and 60-67). -/
structure FetchSuccess where
  is_playlist : Bool
  title : String
  videos : List VideoData
  first_video_streams : List StreamD
  thumbnail_url : String
deriving DecidableEq

/-- The dictionary `fetch_details` returns: the success record or the failure
record `{"success": False, "error": str(e)}`. -/
inductive FetchResult where
  | success (s : FetchSuccess)
  | failure (error : String)
deriving DecidableEq

/-- Whether `p` is a prefix of `l`, over character lists. -/
def chPre : List Char → List Char → Bool
  | [], _ => true
  | _ :: _, [] => false
  | a :: as, b :: bs => a == b && chPre as bs

/-- Whether `p` occurs as a contiguous run inside `l`. -/
def chSub (p : List Char) : List Char → Bool
  | [] => chPre p []
  | b :: bs => chPre p (b :: bs) || chSub p bs

/-- Python `sub in s` (substring containment). -/
def pyIn (sub s : String) : Bool := chSub sub.data s.data

/-- The body of the `try` at lines 41-67: classification by `"playlist" in
url`, the `ValueError` for an empty playlist, and the two success records. -/
def fetch_details_try (url : String) (p : Provider) : Except PyErr FetchSuccess :=
  if pyIn "playlist" url then
    match p.playlistResult with
    | .error e => .error e
    | .ok pl =>
      match pl.videos with
      | [] => .error (.valueError "Playlist is empty or invalid.")
      | fv :: rest =>
          .ok { is_playlist := true, title := pl.title, videos := fv :: rest,
                first_video_streams := fv.streams, thumbnail_url := fv.thumbnail_url }
  else
    match p.videoResult with
    | .error e => .error e
    | .ok v =>
        .ok { is_playlist := false, title := v.title, videos := [v],
              first_video_streams := v.streams, thumbnail_url := v.thumbnail_url }

/-- Shallow embedding of `YouTubeHandler.fetch_details` (lines 24-70): the
`except Exception` at line 68 converts any raised error into the failure
record, so the outer `Except` layer (an exception escaping the method) is
never `.error`. -/
def fetch_details (url : String) (p : Provider) : Except PyErr FetchResult :=
  match fetch_details_try url p with
  | .ok s => .ok (.success s)
  | .error e => .ok (.failure e.str)

/-! ### Batch driver (src/gui/app.py lines 136-179) -/

/-- One entry of `self.videos_to_download`, together with the oracle fixing
the outcomes of the external calls its download makes. -/
structure VideoItem where
  title : String
  streams : List StreamD
  oracle : VOracle

/-- The `App` state `download_logic` reads: the chosen directory, the text of
the title label (e.g. `"Playlist: <title>"`), the selected mode and quality,
and the fetched items. -/
structure BatchEnv where
  download_dir : String
  title_text : String
  mode : String
  quality : String
  videos : List VideoItem

/-- The attribute names the class `YouTubeHandler`
(src/utils/youtube_handler.py lines 21-251) defines: its five methods.
Python attribute lookup on the `self.handler` instance resolves against
these; any other name raises `AttributeError`. -/
def handlerAttrNames : List String :=
  ["fetch_details", "get_quality_options", "download", "_download_audio", "_download_video"]

/-- `getattr(self.handler, name)` restricted to whether it resolves. -/
def getattrHandler (name : String) : Except PyErr Unit :=
  if name ∈ handlerAttrNames then .ok ()
  else .error (.attributeError
    ("'YouTubeHandler' object has no attribute '" ++ name ++ "'"))

/-- Python `f"{n:02d}"`: decimal, zero-padded to width 2. -/
def fmt02 (n : Nat) : String :=
  let s := toString n
  if s.length < 2 then "0" ++ s else s

/-- The terminal listbox status one item ends in (lines 168 and 171):
`str(e)` truncated to 50 characters on failure. -/
def status_of (r : Except PyErr Unit) : String :=
  match r with
  | .ok _ => "✔ Completed"
  | .error e => "❌ FAILED - " ++ e.str.take 50

/-- The per-item loop of `download_logic` (lines 155-177): each item is tried
in input order; `except Exception` at line 169 catches every failure, records
the truncated reason and continues, so the loop itself never raises. -/
def runItemsAux (quality mode base_path : String) (is_playlist : Bool) :
    Nat → List VideoItem → St → List String × St
  | _, [], st => ([], st)
  | idx, v :: rest, st =>
      let pfx := if is_playlist then fmt02 (idx + 1) ++ "." else ""
      let (r, st) := handler_download v.streams quality mode base_path pfx v.title v.oracle st
      let (ss, st) := runItemsAux quality mode base_path is_playlist (idx + 1) rest st
      (status_of r :: ss, st)

/-- Shallow embedding of `App.download_logic` (src/gui/app.py lines 136-179).
The result is the final per-item status list when the worker thread runs to
completion, or the uncaught exception that kills the thread.  Line 148
accesses `self.handler.helpers`, an attribute `YouTubeHandler` does not
define, so the multi-item branch is modelled through `getattrHandler`. -/
def download_logic (env : BatchEnv) (st : St) : Except PyErr (List String) × St :=
  let is_playlist := decide (env.videos.length > 1)
  if is_playlist then
    match getattrHandler "helpers" with
    | .error e => (.error e, st)
    | .ok _ =>
        let playlist_title := sanitize_filename (env.title_text.replace "Playlist: " "")
        let base_path := pjoin env.download_dir playlist_title
        let st := st.emit (.mkdir base_path)
        let (ss, st) := runItemsAux env.quality env.mode base_path true 0 env.videos st
        (.ok ss, st)
  else
    let (ss, st) := runItemsAux env.quality env.mode env.download_dir false 0 env.videos st
    (.ok ss, st)

/-! ### Concrete inputs used by the closed theorems -/

/-- A 1080p video-only (adaptive) stream. -/
def voHD : StreamD :=
  { progressive := false, only_video := true, only_audio := false,
    resolution := some "1080p", abr := none }

/-- A 720p video-only (adaptive) stream. -/
def vo720 : StreamD :=
  { progressive := false, only_video := true, only_audio := false,
    resolution := some "720p", abr := none }

/-- A 128kbps audio-only stream. -/
def audio128 : StreamD :=
  { progressive := false, only_video := false, only_audio := true,
    resolution := none, abr := some "128kbps" }

/-- A 160kbps audio-only stream. -/
def audio160 : StreamD :=
  { progressive := false, only_video := false, only_audio := true,
    resolution := none, abr := some "160kbps" }

/-- A 720p progressive stream. -/
def prog720 : StreamD :=
  { progressive := true, only_video := false, only_audio := false,
    resolution := some "720p", abr := none }

/-- The empty starting state: no events yet, no files on disk. -/
def st0 : St := { events := [], files := [] }

/-- Counts the muxer invocations recorded in a state. -/
def muxCount (st : St) : Nat :=
  (st.events.filter (fun e => match e with | .mux _ => true | _ => false)).length

/-- Counts the video-only transfers recorded in a state. -/
def videoDlCount (st : St) : Nat :=
  (st.events.filter (fun e => match e with | .dlVideo _ => true | _ => false)).length

/-- Counts the audio-only transfers recorded in a state. -/
def audioDlCount (st : St) : Nat :=
  (st.events.filter (fun e => match e with | .dlAudio _ => true | _ => false)).length

/-- Counts the `os.makedirs` calls recorded in a state. -/
def mkdirCount (st : St) : Nat :=
  (st.events.filter (fun e => match e with | .mkdir _ => true | _ => false)).length

/-- An item whose streams offer only adaptive 1080p video plus 128kbps audio,
with every external call succeeding. -/
def itemA : VideoItem := { title := "a", streams := [voHD, audio128], oracle := {} }

/-- A second such item. -/
def itemB : VideoItem := { title := "b", streams := [voHD, audio128], oracle := {} }

/-- A third such item, whose video transfers fail. -/
def itemCFail : VideoItem :=
  { title := "c", streams := [voHD, audio128], oracle := { vOk1 := false } }

/-- A two-item batch in video mode. -/
def env2 : BatchEnv :=
  { download_dir := "/dl", title_text := "Playlist: My List", mode := "Video",
    quality := "1080p", videos := [itemA, itemB] }

/-- A three-item batch in video mode whose second item fails. -/
def env3 : BatchEnv :=
  { download_dir := "/dl", title_text := "Playlist: My List", mode := "Video",
    quality := "1080p", videos := [itemA, itemCFail, itemB] }

/-- A single-item batch in video mode (e.g. a collection that resolved to one
item), with an illegal character in the title. -/
def env1 : BatchEnv :=
  { download_dir := "/dl", title_text := "Playlist: My List", mode := "Video",
    quality := "1080p", videos := [{ title := "v<1", streams := [voHD, audio128], oracle := {} }] }

/-! ### Order instances for the sort relations -/

instance (priority := low) {α : Type} (key : α → Nat) :
    IsTotal α (fun a b => key a ≤ key b) :=
  ⟨fun a b => Nat.le_total (key a) (key b)⟩

instance (priority := low) {α : Type} (key : α → Nat) :
    IsTrans α (fun a b => key a ≤ key b) :=
  ⟨fun _ _ _ => Nat.le_trans⟩

instance (priority := low) {α : Type} (key : α → Nat) :
    IsTotal α (fun a b => key b ≤ key a) :=
  ⟨fun a b => Nat.le_total (key b) (key a)⟩

instance (priority := low) {α : Type} (key : α → Nat) :
    IsTrans α (fun a b => key b ≤ key a) :=
  ⟨fun _ _ _ h1 h2 => Nat.le_trans h2 h1⟩

/-! ## Theorems -/

/-- `self.handler.helpers` does not resolve: `helpers` is not an attribute of
`YouTubeHandler`. -/
theorem getattrHandler_helpers :
    getattrHandler "helpers"
      = .error (.attributeError "'YouTubeHandler' object has no attribute 'helpers'") := rfl

/-- C9: `sanitize_filename` is pure and total: for every input string the
output contains none of the characters `< > : " / \ | ? *` (each occurrence
is replaced by a hyphen), and it is idempotent. -/
theorem sanitize_filename_correct (s : String) :
    (∀ c ∈ (sanitize_filename s).data, c ∉ illegalChars) ∧
    sanitize_filename (sanitize_filename s) = sanitize_filename s ∧
    (sanitize_filename s).data
      = s.data.map (fun c => if c ∈ illegalChars then '-' else c) := by
  refine ⟨?_, ?_, rfl⟩
  · intro c hc
    simp only [sanitize_filename, List.mem_map] at hc
    obtain ⟨a, -, ha⟩ := hc
    by_cases h : a ∈ illegalChars
    · simp only [h, if_pos] at ha
      subst ha
      decide
    · simp only [h, if_neg, not_false_iff, ite_false] at ha
      subst ha
      exact h
  · show String.mk (((s.data.map _).map _)) = _
    rw [List.map_map]
    refine congrArg String.mk (List.map_congr_left ?_ )
    intro a _
    by_cases h : a ∈ illegalChars
    · simp [h, Function.comp]
    · simp [h, Function.comp]

/-- C1 is violated by the code: on an item with no progressive stream at the
requested resolution, a fully successful `_download_video` call performs TWO
video-only transfers, TWO audio-only transfers and invokes the muxer TWICE
(the block at lines 196-234 is duplicated at lines 236-251), each muxer call
carrying the stream-copy argument list; the temporary files are absent at
return. -/
theorem adaptive_path_runs_transfers_and_mux_twice :
    (download_video [voHD, audio128] "1080p" "/dl" "t" {} st0).1 = .ok () ∧
    videoDlCount (download_video [voHD, audio128] "1080p" "/dl" "t" {} st0).2 = 2 ∧
    audioDlCount (download_video [voHD, audio128] "1080p" "/dl" "t" {} st0).2 = 2 ∧
    muxCount (download_video [voHD, audio128] "1080p" "/dl" "t" {} st0).2 = 2 ∧
    (download_video [voHD, audio128] "1080p" "/dl" "t" {} st0).2.events.filter
        (fun e => match e with | .mux _ => true | _ => false)
      = [.mux (ffmpegArgs "/dl/t_video.mp4" "/dl/t_audio.mp4" "/dl/t.mp4"),
         .mux (ffmpegArgs "/dl/t_video.mp4" "/dl/t_audio.mp4" "/dl/t.mp4")] ∧
    "/dl/t_video.mp4" ∉ (download_video [voHD, audio128] "1080p" "/dl" "t" {} st0).2.files ∧
    "/dl/t_audio.mp4" ∉ (download_video [voHD, audio128] "1080p" "/dl" "t" {} st0).2.files := by
  decide

/-- C4 is violated by the code: in the duplicated cleanup block at lines
250-251 `os.remove` is not guarded, so when removing `<filename>_video.mp4`
raises an `OSError` after a successful merge, the error propagates to the
caller (the result is the `OSError`, not success) and the audio temporary is
never deleted. -/
theorem cleanup_error_propagates_and_leaves_temp :
    (download_video [voHD, audio128] "1080p" "/dl" "t" { rmV2 := false } st0).1
      = .error (.osError "OSError removing /dl/t_video.mp4") ∧
    muxCount (download_video [voHD, audio128] "1080p" "/dl" "t" { rmV2 := false } st0).2 = 2 ∧
    "/dl/t_audio.mp4"
      ∈ (download_video [voHD, audio128] "1080p" "/dl" "t" { rmV2 := false } st0).2.files := by
  decide

/-- C2 fails on the code: requesting "4320p" when the video-only streams
offer only "1080p" and "720p" selects nothing (the `res=quality` filter is an
exact match with no fallback) and `_download_video` raises instead of
downloading the 1080p stream. -/
theorem no_resolution_fallback_cex :
    video_stream_selection [voHD, vo720, audio128] "4320p" = none ∧
    download_video [voHD, vo720, audio128] "4320p" "/dl" "t" {} st0
      = (.error (.exception "Could not find separate video/audio streams for 4320p."), st0) := by
  decide

/-- C3 is violated by the code: for every batch of two or more items,
`download_logic` reads `self.handler.helpers` (src/gui/app.py line 148),
which raises `AttributeError` before the collection subdirectory is created
and before any item is processed; the worker dies with the state unchanged. -/
theorem multi_item_batch_raises_attribute_error
    (dir tt mode q : String) (v w : VideoItem) (rest : List VideoItem) (st : St) :
    download_logic
        { download_dir := dir, title_text := tt, mode := mode, quality := q,
          videos := v :: w :: rest } st
      = (.error (.attributeError "'YouTubeHandler' object has no attribute 'helpers'"), st) := by
  have h : decide ((v :: w :: rest).length > 1) = true := by
    simp [List.length_cons]
  simp [download_logic, h, getattrHandler_helpers]

/-- C6 is violated by the code: a three-item batch whose second item would
fail never reaches the per-item loop at all — the `AttributeError` from
`self.handler.helpers` kills the worker before item 1, so no statuses
`[Completed, Failed, Completed]` are ever produced. -/
theorem three_item_batch_dies_before_loop :
    download_logic env3 st0
      = (.error (.attributeError "'YouTubeHandler' object has no attribute 'helpers'"), st0) ∧
    env3.videos.length = 3 ∧ (env3.videos.get? 1).map (fun v => v.oracle.vOk1) = some false := by
  decide

/-- In a list sorted ascending by a numeric key, every element's key is at
most the last element's key. -/
theorem key_le_getLast {α : Type} (key : α → Nat) :
    ∀ (l : List α) (h : l ≠ []), l.Sorted (fun a b => key a ≤ key b) →
      ∀ x ∈ l, key x ≤ key (l.getLast h)
  | [], h, _, _, hx => absurd rfl h
  | [a], _, _, x, hx => by
      simp only [List.mem_singleton] at hx
      subst hx
      simp [List.getLast]
  | a :: b :: t, _, hs, x, hx => by
      rw [List.getLast_cons (l := b :: t) (by simp)]
      rcases List.mem_cons.mp hx with rfl | hx2
      · exact (List.pairwise_cons.mp hs).1 _ (List.getLast_mem _)
      · exact key_le_getLast key (b :: t) (by simp) (List.pairwise_cons.mp hs).2 x hx2

/-- When every stream of `l` has the attribute set with a digit-bearing
value, `order_by(attr).desc().first()` yields a stream of `l` whose numeric
key is maximal. -/
theorem order_by_desc_max (attr : StreamD → Option String) (l : List StreamD)
    (hattr : ∀ s ∈ l, ∃ b, attr s = some b ∧ (numKey? b).isSome = true)
    (hne : l ≠ []) :
    ∃ s, (order_by_desc attr l).head? = some s ∧ s ∈ l ∧
      ∀ t ∈ l, numKey ((attr t).getD "") ≤ numKey ((attr s).getD "") := by
  have hfil : l.filter (fun s => (attr s).isSome) = l :=
    List.filter_eq_self.mpr (fun a ha => by
      obtain ⟨b, hb, -⟩ := hattr a ha
      simp [hb])
  have hall : ((l.filter (fun s => (attr s).isSome)).all
      (fun s => (numKey? ((attr s).getD "")).isSome)) = true := by
    rw [hfil, List.all_eq_true]
    intro s hs
    obtain ⟨b, hb, hk⟩ := hattr s hs
    simp [hb, hk]
  have hperm := List.perm_insertionSort
    (fun a b => numKey ((attr a).getD "") ≤ numKey ((attr b).getD "")) l
  have hsne : (List.insertionSort
      (fun a b => numKey ((attr a).getD "") ≤ numKey ((attr b).getD "")) l) ≠ [] := by
    intro hnil
    exact hne (List.eq_nil_of_length_eq_zero (by
      have := hperm.length_eq
      rw [hnil] at this
      exact this.symm))
  have hsorted := List.sorted_insertionSort
    (fun a b => numKey ((attr a).getD "") ≤ numKey ((attr b).getD "")) l
  unfold order_by_desc
  rw [if_pos hall, hfil, List.head?_reverse, List.getLast?_eq_getLast _ hsne]
  refine ⟨_, rfl, ?_, ?_⟩
  · exact hperm.subset (List.getLast_mem hsne)
  · intro t ht
    exact key_le_getLast _ _ hsne hsorted t (hperm.mem_iff.mpr ht)
/-- A transfer either succeeds or raises a transfer-layer error. -/
theorem pyDownload_fst (f : String) (ok : Bool) (e : Ev) (st : St) :
    (pyDownload f ok e st).1 = .ok () ∨
    (pyDownload f ok e st).1 = .error (.transfer "TransferFailed") := by
  cases ok <;> simp [pyDownload]

/-- Ordering an empty query yields an empty query. -/
theorem order_by_desc_nil (attr : StreamD → Option String) :
    order_by_desc attr [] = [] := rfl

/-- C7: in audio mode, an audio-only stream whose `abr` equals the requested
quality is selected when one exists; otherwise the highest-bitrate audio-only
stream is selected; and `_download_audio` raises "No audio stream found." if
and only if the item has no audio-only streams at all (assuming, as pytubefix
guarantees for audio streams, that every audio-only stream carries a
digit-bearing `abr` label). -/
theorem audio_selection_correct
    (streams : List StreamD) (quality save_path file_title : String) (o : VOracle) (st : St)
    (h1 : ∀ s ∈ streams, s.only_audio = true →
      ∃ b, s.abr = some b ∧ (numKey? b).isSome = true) :
    ((∃ s ∈ streams, s.only_audio = true ∧ s.abr = some quality) →
      ∃ s, exact_audio_selection streams quality = some s ∧
        s.only_audio = true ∧ s.abr = some quality) ∧
    (exact_audio_selection streams quality = none →
      streams.filter (fun s => s.only_audio) ≠ [] →
      ∃ s, best_audio_selection streams = some s ∧ s.only_audio = true ∧
        ∀ t ∈ streams, t.only_audio = true →
          numKey (t.abr.getD "") ≤ numKey (s.abr.getD "")) ∧
    ((download_audio streams quality save_path file_title o st).1
        = .error (.exception "No audio stream found.") ↔
      streams.filter (fun s => s.only_audio) = []) := by
  refine ⟨?_, ?_, ?_⟩
  · rintro ⟨s, hs, ha, hb⟩
    have hmem : s ∈ streams.filter (fun x => x.only_audio && x.abr == some quality) :=
      List.mem_filter.mpr ⟨hs, by simp [ha, hb]⟩
    cases hfl : streams.filter (fun x => x.only_audio && x.abr == some quality) with
    | nil => rw [hfl] at hmem; exact absurd hmem (List.not_mem_nil s)
    | cons hd tl =>
        have hhd : hd ∈ streams.filter (fun x => x.only_audio && x.abr == some quality) := by
          rw [hfl]; exact List.mem_cons_self hd tl
        have := (List.mem_filter.mp hhd).2
        simp only [Bool.and_eq_true, beq_iff_eq] at this
        exact ⟨hd, by simp [exact_audio_selection, hfl], this.1, this.2⟩
  · intro _ hne
    obtain ⟨s, hhead, hmem, hmax⟩ := order_by_desc_max (fun s => s.abr)
      (streams.filter (fun s => s.only_audio))
      (fun s hs => h1 s (List.mem_filter.mp hs).1 (List.mem_filter.mp hs).2) hne
    refine ⟨s, hhead, (List.mem_filter.mp hmem).2, ?_⟩
    intro t ht hta
    exact hmax t (List.mem_filter.mpr ⟨ht, hta⟩)
  · constructor
    · intro herr
      by_contra hne
      unfold download_audio at herr
      cases hex : exact_audio_selection streams quality with
      | some s =>
          rw [hex] at herr
          simp only at herr
          rcases pyDownload_fst (pjoin save_path (file_title ++ ".mp3")) o.audioDlOk
            (.dlAudio (pjoin save_path (file_title ++ ".mp3"))) st with h | h <;>
            rw [h] at herr <;> simp at herr
      | none =>
          obtain ⟨s, hhead, -, -⟩ := order_by_desc_max (fun s => s.abr)
            (streams.filter (fun s => s.only_audio))
            (fun s hs => h1 s (List.mem_filter.mp hs).1 (List.mem_filter.mp hs).2) hne
          rw [hex] at herr
          unfold best_audio_selection at herr
          rw [hhead] at herr
          simp only at herr
          rcases pyDownload_fst (pjoin save_path (file_title ++ ".mp3")) o.audioDlOk
            (.dlAudio (pjoin save_path (file_title ++ ".mp3"))) st with h | h <;>
            rw [h] at herr <;> simp at herr
    · intro hnil
      have hex : exact_audio_selection streams quality = none := by
        unfold exact_audio_selection
        have : streams.filter (fun x => x.only_audio && x.abr == some quality) = [] := by
          rw [List.filter_eq_nil_iff]
          intro a ha
          have := (List.filter_eq_nil_iff.mp hnil) a ha
          simp only [Bool.and_eq_true, beq_iff_eq, not_and]
          intro hoa
          exact absurd hoa this
        rw [this]
        rfl
      unfold download_audio best_audio_selection
      rw [hex, hnil, order_by_desc_nil]
      rfl
/-- C8: in video mode the Quality Enumerator returns exactly the distinct
resolution labels of the progressive and video-only streams, sorted strictly
descending by the numeric value embedded in the label with no duplicate
numeric values, and returns exactly `["Not Available"]` when the filtered set
is empty (assuming the labels parse as `<digits>p` and distinct labels have
distinct numeric values, as is the case for pytubefix resolution labels). -/
theorem video_quality_options_sorted (streams : List StreamD)
    (hparse : ∀ x ∈ resolutionLabels streams, (resKey? x).isSome = true)
    (hinj : ∀ x ∈ resolutionLabels streams, ∀ y ∈ resolutionLabels streams,
      resKey x = resKey y → x = y) :
    (resolutionLabels streams = [] →
      get_quality_options streams "Video" = ["Not Available"]) ∧
    (resolutionLabels streams ≠ [] →
      (get_quality_options streams "Video").Perm (resolutionLabels streams) ∧
      (get_quality_options streams "Video").Pairwise (fun a b => resKey b < resKey a)) := by
  have hall : (resolutionLabels streams).all (fun x => (resKey? x).isSome) = true :=
    List.all_eq_true.mpr hparse
  constructor
  · intro hnil
    simp [get_quality_options, hnil]
  · intro hne
    have hperm := List.perm_insertionSort (fun a b => resKey b ≤ resKey a)
      (resolutionLabels streams)
    have hsne : List.insertionSort (fun a b => resKey b ≤ resKey a)
        (resolutionLabels streams) ≠ [] := by
      intro hnil
      exact hne (List.eq_nil_of_length_eq_zero (by
        have := hperm.length_eq
        rw [hnil] at this
        exact this.symm))
    have hempty : (List.insertionSort (fun a b => resKey b ≤ resKey a)
        (resolutionLabels streams)).isEmpty = false := by
      cases hs : List.insertionSort (fun a b => resKey b ≤ resKey a)
          (resolutionLabels streams) with
      | nil => exact absurd hs hsne
      | cons a t => rfl
    have hout : get_quality_options streams "Video"
        = List.insertionSort (fun a b => resKey b ≤ resKey a) (resolutionLabels streams) := by
      simp [get_quality_options, hall, hempty]
    rw [hout]
    refine ⟨hperm, ?_⟩
    have hsorted := List.sorted_insertionSort (fun a b => resKey b ≤ resKey a)
      (resolutionLabels streams)
    have hnodup : (List.insertionSort (fun a b => resKey b ≤ resKey a)
        (resolutionLabels streams)).Nodup := by
      refine hperm.symm.nodup ?_
      unfold resolutionLabels
      exact List.nodup_dedup _
    refine List.Pairwise.imp_of_mem ?_ (List.Pairwise.and hsorted hnodup)
    intro a b ha hb hab
    refine Nat.lt_of_le_of_ne hab.1 ?_
    intro heq
    exact hab.2 (hinj b (hperm.mem_iff.mp hb) a (hperm.mem_iff.mp ha) heq).symm
/-- C5: `fetch_details` never raises past its boundary: for every URL and
every provider behaviour it returns a record — the success record or a
failure record carrying the error message — and a playlist URL resolving to
zero items yields the failure record "Playlist is empty or invalid.", not an
exception. -/
theorem fetch_details_never_raises (url : String) (p : Provider) :
    (∃ r, fetch_details url p = .ok r) ∧
    (∀ pl, pyIn "playlist" url = true → p.playlistResult = .ok pl → pl.videos = [] →
      fetch_details url p = .ok (.failure "Playlist is empty or invalid.")) := by
  constructor
  · unfold fetch_details
    cases fetch_details_try url p with
    | ok s => exact ⟨.success s, rfl⟩
    | error e => exact ⟨.failure e.str, rfl⟩
  · intro pl hurl hpl hvid
    unfold fetch_details fetch_details_try
    rw [hurl]
    simp only [if_true]
    rw [hpl]
    simp [hvid, PyErr.str]

/-- C2 as amended: when no progressive stream and no video-only stream match
the requested resolution exactly, `_download_video` raises "Could not find
separate video/audio streams for <quality>." instead of falling back to the
highest available resolution; the `order_by("resolution").desc()` call only
orders streams within the exact-match set. -/
theorem video_exact_match_required
    (streams : List StreamD) (quality save_path file_title : String) (o : VOracle) (st : St)
    (hprog : ∀ s ∈ streams, ¬ (s.progressive = true ∧ s.resolution = some quality))
    (hvid : ∀ s ∈ streams, ¬ (s.only_video = true ∧ s.resolution = some quality)) :
    download_video streams quality save_path file_title o st
      = (.error (.exception ("Could not find separate video/audio streams for "
          ++ quality ++ ".")), st) := by
  have hp : progressive_selection streams quality = none := by
    unfold progressive_selection
    have : streams.filter (fun s => s.progressive && s.resolution == some quality) = [] := by
      rw [List.filter_eq_nil_iff]
      intro a ha
      simp only [Bool.and_eq_true, beq_iff_eq, not_and]
      intro h1 h2
      exact hprog a ha ⟨h1, h2⟩
    rw [this]
    rfl
  have hv : video_stream_selection streams quality = none := by
    unfold video_stream_selection
    have : streams.filter (fun s => s.only_video && s.resolution == some quality) = [] := by
      rw [List.filter_eq_nil_iff]
      intro a ha
      simp only [Bool.and_eq_true, beq_iff_eq, not_and]
      intro h1 h2
      exact hvid a ha ⟨h1, h2⟩
    rw [this, order_by_desc_nil]
    rfl
  unfold download_video
  rw [hp, hv]
/-- Adding a file changes no events. -/
theorem mc_addFile (st : St) (f : String) : mkdirCount (st.addFile f) = mkdirCount st := rfl

/-- Removing a file from the state changes no events. -/
theorem mc_rmFile (st : St) (f : String) : mkdirCount (st.rmFile f) = mkdirCount st := rfl

/-- Emitting a non-mkdir event preserves the mkdir count. -/
theorem mc_emit (st : St) (e : Ev)
    (h : (match e with | Ev.mkdir _ => true | _ => false) = false) :
    mkdirCount (st.emit e) = mkdirCount st := by
  unfold mkdirCount St.emit
  simp [List.filter_append, h]

/-- A transfer performs no mkdir. -/
theorem mc_pyDownload (f : String) (ok : Bool) (e : Ev)
    (h : (match e with | Ev.mkdir _ => true | _ => false) = false) (st : St) :
    mkdirCount (pyDownload f ok e st).2 = mkdirCount st := by
  cases ok
  · exact mc_emit st e h
  · show mkdirCount ((st.emit e).addFile f) = mkdirCount st
    rw [mc_addFile]
    exact mc_emit st e h

/-- A muxer invocation performs no mkdir. -/
theorem mc_pyRunMux (args : List String) (out : String) (res : MuxRes) (st : St) :
    mkdirCount (pyRunMux args out res st).2 = mkdirCount st := by
  cases res
  · show mkdirCount ((st.emit (.mux args)).addFile out) = mkdirCount st
    rw [mc_addFile]
    exact mc_emit _ _ rfl
  · exact mc_emit _ _ rfl
  · exact mc_emit _ _ rfl

/-- An `os.remove` performs no mkdir. -/
theorem mc_pyRemove (f : String) (ok : Bool) (st : St) :
    mkdirCount (pyRemove f ok st).2 = mkdirCount st := by
  cases ok
  · rfl
  · show mkdirCount ((st.emit (.rm f)).rmFile f) = mkdirCount st
    rw [mc_rmFile]
    exact mc_emit _ _ rfl

/-- Guarded cleanup performs no mkdir. -/
theorem mc_cleanupTemp1 (f : String) (rmOk : Bool) (st : St) :
    mkdirCount (cleanupTemp1 f rmOk st) = mkdirCount st := by
  unfold cleanupTemp1
  by_cases hf : f ∈ st.files
  · rw [if_pos hf]
    cases rmOk
    · show mkdirCount (st.emit (Ev.rmFailLogged f)) = mkdirCount st
      exact mc_emit _ _ rfl
    · show mkdirCount ((st.emit (Ev.rm f)).rmFile f) = mkdirCount st
      rw [mc_rmFile]
      exact mc_emit _ _ rfl
  · rw [if_neg hf]

/-- The first cleanup block performs no mkdir. -/
theorem mc_cleanup1 (v a : String) (o : VOracle) (st : St) :
    mkdirCount (cleanup1 v a o st) = mkdirCount st := by
  unfold cleanup1
  rw [mc_cleanupTemp1, mc_cleanupTemp1]

/-- The second cleanup block performs no mkdir. -/
theorem mc_cleanup2 (v a : String) (o : VOracle) (st : St) :
    mkdirCount (cleanup2 v a o st).2 = mkdirCount st := by
  unfold cleanup2
  by_cases hv : v ∈ st.files
  · rw [if_pos hv]
    cases hrv : o.rmV2
    · rfl
    · show mkdirCount
          (if a ∈ ((st.emit (Ev.rm v)).rmFile v).files then
            pyRemove a o.rmA2 ((st.emit (Ev.rm v)).rmFile v)
          else (.ok (), (st.emit (Ev.rm v)).rmFile v)).2 = mkdirCount st
      by_cases ha : a ∈ ((st.emit (Ev.rm v)).rmFile v).files
      · rw [if_pos ha, mc_pyRemove, mc_rmFile]
        exact mc_emit _ _ rfl
      · rw [if_neg ha]
        show mkdirCount ((st.emit (Ev.rm v)).rmFile v) = mkdirCount st
        rw [mc_rmFile]
        exact mc_emit _ _ rfl
  · rw [if_neg hv]
    by_cases ha : a ∈ st.files
    · rw [if_pos ha, mc_pyRemove]
    · rw [if_neg ha]
/-- The audio download path performs no mkdir. -/
theorem mc_download_audio (streams : List StreamD) (quality save_path file_title : String)
    (o : VOracle) (st : St) :
    mkdirCount (download_audio streams quality save_path file_title o st).2 = mkdirCount st := by
  unfold download_audio
  cases exact_audio_selection streams quality
  · cases best_audio_selection streams
    · rfl
    · exact mc_pyDownload _ _ _ rfl st
  · exact mc_pyDownload _ _ _ rfl st

/-- The video download path performs no mkdir. -/
theorem mc_download_video (streams : List StreamD) (quality save_path file_title : String)
    (o : VOracle) (st : St) :
    mkdirCount (download_video streams quality save_path file_title o st).2 = mkdirCount st := by
  unfold download_video
  cases progressive_selection streams quality
  case some _ => exact mc_pyDownload _ _ _ rfl st
  case none =>
  cases video_stream_selection streams quality
  case none =>
    cases best_audio_selection streams <;> rfl
  case some _ =>
  cases best_audio_selection streams
  case none => rfl
  case some _ =>
  dsimp only
  rcases e1 : pyDownload (pjoin save_path (file_title ++ "_video.mp4")) o.vOk1
      (.dlVideo (pjoin save_path (file_title ++ "_video.mp4"))) st with ⟨r1, st1⟩
  have h1 : mkdirCount st1 = mkdirCount st := by
    have := mc_pyDownload (pjoin save_path (file_title ++ "_video.mp4")) o.vOk1
      (.dlVideo (pjoin save_path (file_title ++ "_video.mp4"))) rfl st
    rw [e1] at this
    exact this
  cases r1
  case error e =>
    dsimp only
    rw [mc_cleanup1, h1]
  case ok _ =>
  dsimp only
  rcases e2 : pyDownload (pjoin save_path (file_title ++ "_audio.mp4")) o.aOk1
      (.dlAudio (pjoin save_path (file_title ++ "_audio.mp4"))) st1 with ⟨r2, st2⟩
  have h2 : mkdirCount st2 = mkdirCount st := by
    have := mc_pyDownload (pjoin save_path (file_title ++ "_audio.mp4")) o.aOk1
      (.dlAudio (pjoin save_path (file_title ++ "_audio.mp4"))) rfl st1
    rw [e2] at this
    rw [this, h1]
  cases r2
  case error e =>
    dsimp only
    rw [mc_cleanup1, h2]
  case ok _ =>
  dsimp only
  rcases e3 : pyRunMux (ffmpegArgs (pjoin save_path (file_title ++ "_video.mp4"))
      (pjoin save_path (file_title ++ "_audio.mp4")) (pjoin save_path (file_title ++ ".mp4")))
      (pjoin save_path (file_title ++ ".mp4")) o.mux1 st2 with ⟨r3, st3⟩
  have h3 : mkdirCount st3 = mkdirCount st := by
    have := mc_pyRunMux (ffmpegArgs (pjoin save_path (file_title ++ "_video.mp4"))
      (pjoin save_path (file_title ++ "_audio.mp4")) (pjoin save_path (file_title ++ ".mp4")))
      (pjoin save_path (file_title ++ ".mp4")) o.mux1 st2
    rw [e3] at this
    rw [this, h2]
  have hc3 : mkdirCount (cleanup1 (pjoin save_path (file_title ++ "_video.mp4"))
      (pjoin save_path (file_title ++ "_audio.mp4")) o st3) = mkdirCount st := by
    rw [mc_cleanup1, h3]
  cases r3
  case error e =>
    cases e <;> dsimp only <;> rw [mc_cleanup1, h3]
  case ok _ =>
  dsimp only
  rcases e4 : pyDownload (pjoin save_path (file_title ++ "_video.mp4")) o.vOk2
      (.dlVideo (pjoin save_path (file_title ++ "_video.mp4")))
      (cleanup1 (pjoin save_path (file_title ++ "_video.mp4"))
        (pjoin save_path (file_title ++ "_audio.mp4")) o st3) with ⟨r4, st4⟩
  have h4 : mkdirCount st4 = mkdirCount st := by
    have := mc_pyDownload (pjoin save_path (file_title ++ "_video.mp4")) o.vOk2
      (.dlVideo (pjoin save_path (file_title ++ "_video.mp4"))) rfl
      (cleanup1 (pjoin save_path (file_title ++ "_video.mp4"))
        (pjoin save_path (file_title ++ "_audio.mp4")) o st3)
    rw [e4] at this
    rw [this, hc3]
  cases r4
  case error e => exact h4
  case ok _ =>
  dsimp only
  rcases e5 : pyDownload (pjoin save_path (file_title ++ "_audio.mp4")) o.aOk2
      (.dlAudio (pjoin save_path (file_title ++ "_audio.mp4"))) st4 with ⟨r5, st5⟩
  have h5 : mkdirCount st5 = mkdirCount st := by
    have := mc_pyDownload (pjoin save_path (file_title ++ "_audio.mp4")) o.aOk2
      (.dlAudio (pjoin save_path (file_title ++ "_audio.mp4"))) rfl st4
    rw [e5] at this
    rw [this, h4]
  cases r5
  case error e => exact h5
  case ok _ =>
  dsimp only
  rcases e6 : pyRunMux (ffmpegArgs (pjoin save_path (file_title ++ "_video.mp4"))
      (pjoin save_path (file_title ++ "_audio.mp4")) (pjoin save_path (file_title ++ ".mp4")))
      (pjoin save_path (file_title ++ ".mp4")) o.mux2 st5 with ⟨r6, st6⟩
  have h6 : mkdirCount st6 = mkdirCount st := by
    have := mc_pyRunMux (ffmpegArgs (pjoin save_path (file_title ++ "_video.mp4"))
      (pjoin save_path (file_title ++ "_audio.mp4")) (pjoin save_path (file_title ++ ".mp4")))
      (pjoin save_path (file_title ++ ".mp4")) o.mux2 st5
    rw [e6] at this
    rw [this, h5]
  cases r6
  case ok _ =>
    dsimp only
    rcases e7 : cleanup2 (pjoin save_path (file_title ++ "_video.mp4"))
        (pjoin save_path (file_title ++ "_audio.mp4")) o st6 with ⟨r7, st7⟩
    have h7 : mkdirCount st7 = mkdirCount st := by
      have := mc_cleanup2 (pjoin save_path (file_title ++ "_video.mp4"))
        (pjoin save_path (file_title ++ "_audio.mp4")) o st6
      rw [e7] at this
      rw [this, h6]
    cases r7 <;> exact h7
  case error e =>
    dsimp only
    rcases e7 : cleanup2 (pjoin save_path (file_title ++ "_video.mp4"))
        (pjoin save_path (file_title ++ "_audio.mp4")) o st6 with ⟨r7, st7⟩
    have h7 : mkdirCount st7 = mkdirCount st := by
      have := mc_cleanup2 (pjoin save_path (file_title ++ "_video.mp4"))
        (pjoin save_path (file_title ++ "_audio.mp4")) o st6
      rw [e7] at this
      rw [this, h6]
    cases r7 <;> exact h7
/-- `handler.download` performs no mkdir. -/
theorem mc_handler_download (streams : List StreamD) (quality mode save_path pfx title : String)
    (o : VOracle) (st : St) :
    mkdirCount (handler_download streams quality mode save_path pfx title o st).2
      = mkdirCount st := by
  unfold handler_download
  cases hm : (mode == "Audio")
  · show mkdirCount (download_video streams quality save_path
        (sanitize_filename (pfx ++ title)) o
        (st.emit (Ev.item save_path (sanitize_filename (pfx ++ title))))).2 = mkdirCount st
    rw [mc_download_video]
    exact mc_emit _ _ rfl
  · show mkdirCount (download_audio streams quality save_path
        (sanitize_filename (pfx ++ title)) o
        (st.emit (Ev.item save_path (sanitize_filename (pfx ++ title))))).2 = mkdirCount st
    rw [mc_download_audio]
    exact mc_emit _ _ rfl

/-- The per-item loop performs no mkdir. -/
theorem mc_runItemsAux (quality mode base_path : String) (isp : Bool) :
    ∀ (idx : Nat) (vs : List VideoItem) (st : St),
      mkdirCount (runItemsAux quality mode base_path isp idx vs st).2 = mkdirCount st
  | _, [], _ => rfl
  | idx, v :: rest, st => by
      unfold runItemsAux
      dsimp only
      rcases eh : handler_download v.streams quality mode base_path
          (if isp then fmt02 (idx + 1) ++ "." else "") v.title v.oracle st with ⟨r, st1⟩
      have h1 : mkdirCount st1 = mkdirCount st := by
        have := mc_handler_download v.streams quality mode base_path
          (if isp then fmt02 (idx + 1) ++ "." else "") v.title v.oracle st
        rw [eh] at this
        exact this
      rcases er : runItemsAux quality mode base_path isp (idx + 1) rest st1 with ⟨ss, st2⟩
      have h2 : mkdirCount st2 = mkdirCount st1 := by
        have := mc_runItemsAux quality mode base_path isp (idx + 1) rest st1
        rw [er] at this
        exact this
      dsimp only
      rw [h2, h1]

/-- C10: a batch with exactly one item — however it was fetched — is handled
as a single item: `download_logic` is exactly one `handler.download` call
with `save_path` the chosen directory itself and an empty filename prefix
(so no numeric prefix is applied), and no directory is created. -/
theorem single_item_plain_dest (dir tt mode q : String) (v : VideoItem) (st : St) :
    download_logic
        { download_dir := dir, title_text := tt, mode := mode, quality := q, videos := [v] } st
      = (.ok [status_of (handler_download v.streams q mode dir "" v.title v.oracle st).1],
          (handler_download v.streams q mode dir "" v.title v.oracle st).2) ∧
    mkdirCount (download_logic
        { download_dir := dir, title_text := tt, mode := mode, quality := q,
          videos := [v] } st).2 = mkdirCount st := by
  have heq : download_logic
      { download_dir := dir, title_text := tt, mode := mode, quality := q, videos := [v] } st
      = (.ok [status_of (handler_download v.streams q mode dir "" v.title v.oracle st).1],
          (handler_download v.streams q mode dir "" v.title v.oracle st).2) := by
    unfold download_logic
    rw [show decide ([v].length > 1) = false from rfl]
    simp only [Bool.false_eq_true, if_false, runItemsAux]
  refine ⟨heq, ?_⟩
  rw [heq]
  exact mc_handler_download v.streams q mode dir "" v.title v.oracle st

/-- Witness for the amended C2 theorem at a concrete input: only 1080p and
720p video-only streams exist and 4320p is requested. -/
theorem video_exact_match_required_wit :
    download_video [voHD, vo720, audio128] "4320p" "/w" "t" {} st0
      = (.error (.exception ("Could not find separate video/audio streams for "
          ++ "4320p" ++ ".")), st0) :=
  video_exact_match_required [voHD, vo720, audio128] "4320p" "/w" "t" {} st0
    (by decide) (by decide)

/-- Witness for the C7 theorem at a concrete input: two audio-only streams of
128kbps and 160kbps, requesting "128kbps". -/
theorem audio_selection_correct_wit :
    ((∃ s ∈ [audio128, audio160], s.only_audio = true ∧ s.abr = some "128kbps") →
      ∃ s, exact_audio_selection [audio128, audio160] "128kbps" = some s ∧
        s.only_audio = true ∧ s.abr = some "128kbps") ∧
    (exact_audio_selection [audio128, audio160] "128kbps" = none →
      [audio128, audio160].filter (fun s => s.only_audio) ≠ [] →
      ∃ s, best_audio_selection [audio128, audio160] = some s ∧ s.only_audio = true ∧
        ∀ t ∈ [audio128, audio160], t.only_audio = true →
          numKey (t.abr.getD "") ≤ numKey (s.abr.getD "")) ∧
    ((download_audio [audio128, audio160] "128kbps" "/w" "t" {} st0).1
        = .error (.exception "No audio stream found.") ↔
      [audio128, audio160].filter (fun s => s.only_audio) = []) :=
  audio_selection_correct [audio128, audio160] "128kbps" "/w" "t" {} st0
    (by
      intro s hs _
      rcases List.mem_cons.mp hs with rfl | hs2
      · exact ⟨"128kbps", rfl, rfl⟩
      · rcases List.mem_cons.mp hs2 with rfl | h3
        · exact ⟨"160kbps", rfl, rfl⟩
        · cases h3)

/-- Witness for the C8 theorem at a concrete input: a progressive 720p stream
and a video-only 1080p stream. -/
theorem video_quality_options_sorted_wit :
    (resolutionLabels [prog720, voHD] = [] →
      get_quality_options [prog720, voHD] "Video" = ["Not Available"]) ∧
    (resolutionLabels [prog720, voHD] ≠ [] →
      (get_quality_options [prog720, voHD] "Video").Perm (resolutionLabels [prog720, voHD]) ∧
      (get_quality_options [prog720, voHD] "Video").Pairwise
        (fun a b => resKey b < resKey a)) :=
  video_quality_options_sorted [prog720, voHD] (by decide) (by decide)

end ProYTD
